import Mathlib

/-!
Verification of the Analyzer repository (data_fetcher.py, exchange_mapping.py,
main.py) against its natural-language specification.

Shallow embedding conventions:
* Python floats are modelled as exact rationals (`ℚ`).  The repository only
  performs arithmetic, comparisons and fixed-precision decimal rendering on
  its numbers, all of which are exact for the inputs the spec talks about.
* Python's heterogeneous values (the vendor `info` mapping stores numbers,
  strings, `None`, lists, dicts) are modelled by the inductive `PyVal`.
* Fallible Python code is modelled in the `Except PyError` monad; an uncaught
  exception is an `Except.error`.  `try/except SomeError` blocks are modelled
  by matching on the specific `PyError` constructor, `try/except Exception`
  by matching on any error.
* Python dicts that the code only builds and iterates in insertion order are
  modelled as association lists (`List (String × _)`).
-/

deriving instance DecidableEq for Except

namespace Analyzer

/-- A Python runtime value, as far as the repository manipulates them:
`None`, floats/ints (exact rationals), strings, lists and dicts. -/
inductive PyVal : Type where
  | none : PyVal
  | num : ℚ → PyVal
  | str : String → PyVal
  | list : List PyVal → PyVal
  | dict : List (String × PyVal) → PyVal

/-- The Python exceptions that the repository's code paths can raise. -/
inductive PyError : Type where
  | valueError : String → PyError
  | typeError : String → PyError
  | indexError : String → PyError
  | zeroDivisionError : String → PyError
deriving DecidableEq

/-- The text of the exception, as interpolated by `f"... {e}"`. -/
def PyError.msg : PyError → String
  | .valueError m => m
  | .typeError m => m
  | .indexError m => m
  | .zeroDivisionError m => m

/-- Python truthiness (`bool(v)`) for the values the repository tests with
`if v and w:`. -/
def pyBool : PyVal → Bool
  | .none => false
  | .num q => q != 0
  | .str s => s != ""
  | .list l => !l.isEmpty
  | .dict d => !d.isEmpty

/-- Value of a run of decimal digit characters (the characters are assumed to
be digits; non-digit inputs are rejected before this is called). -/
def digitsToNat (cs : List Char) : ℕ :=
  cs.foldl (fun a c => a * 10 + (c.toNat - 48)) 0

/-- Split a character list at every occurrence of the dot character. -/
def splitOnDot : List Char → List (List Char)
  | [] => [[]]
  | c :: t =>
    let r := splitOnDot t
    if c = '.' then [] :: r
    else
      match r with
      | h :: t2 => (c :: h) :: t2
      | [] => [[c]]

/-- Parse of a decimal string as Python's `float(str)` accepts it: optional
sign, digits, at most one dot, at least one digit.  (Python additionally
accepts exponents, inf/nan and surrounding whitespace; the repository never
feeds such strings to `float`, so they are left out of the model and simply
fail to parse, exactly like every other non-numeric string.) -/
def parseFloat? (s : String) : Option ℚ :=
  let sb : ℚ × List Char :=
    match s.data with
    | '-' :: t => (-1, t)
    | '+' :: t => (1, t)
    | t => (1, t)
  match splitOnDot sb.2 with
  | [ip] =>
    if ip ≠ [] ∧ ip.all Char.isDigit then some (sb.1 * digitsToNat ip)
    else Option.none
  | [ip, fp] =>
    if (ip ≠ [] ∨ fp ≠ []) ∧ ip.all Char.isDigit ∧ fp.all Char.isDigit then
      some (sb.1 * ((digitsToNat ip : ℚ) + (digitsToNat fp : ℚ) / (10 : ℚ) ^ fp.length))
    else Option.none
  | _ => Option.none

/-- Python's `float(value)` coercion: numbers pass through, numeric strings
parse (else `ValueError`), and every other type raises `TypeError`. -/
def pyFloat : PyVal → Except PyError ℚ
  | .num q => .ok q
  | .str s =>
    match parseFloat? s with
    | some q => .ok q
    | Option.none => .error (.valueError ("could not convert string to float: " ++ s))
  | .none => .error (.typeError "float() argument must be a string or a real number, not NoneType")
  | .list _ => .error (.typeError "float() argument must be a string or a real number, not list")
  | .dict _ => .error (.typeError "float() argument must be a string or a real number, not dict")

/-- Round the fraction `n / d` (with `0 < d`) to the nearest integer, ties
to even — the rounding of Python's fixed-precision `format`. -/
def roundHalfEvenInt (n d : ℤ) : ℤ :=
  let f := Int.fdiv n d
  let r2 := 2 * (n - f * d)
  if r2 < d then f
  else if d < r2 then f + 1
  else if f % 2 = 0 then f else f + 1

/-- Character for the decimal digit `d` (`d < 10`). -/
def digitChar (d : ℕ) : Char := Char.ofNat (48 + d)

/-- Exactly `prec` decimal digit characters spelling `fp` with leading
zeroes (`fp < 10 ^ prec`). -/
def fracChars : ℕ → ℕ → List Char
  | 0, _ => []
  | n + 1, fp => fracChars n (fp / 10) ++ [digitChar (fp % 10)]

/-- Python's fixed-precision float formatting, `format(q, '.{prec}f')`:
sign, integer digits, and (when `prec > 0`) a dot followed by exactly
`prec` fractional digits, rounding ties to even.  The scaled value
`q * 10 ^ prec` is computed on the numerator so that all the digit
extraction happens in integer arithmetic. -/
def fmtFixed (prec : ℕ) (q : ℚ) : String :=
  let n := roundHalfEvenInt (q.num * 10 ^ prec) (q.den : ℤ)
  let m := n.natAbs
  let sign : List Char := if q < 0 then ['-'] else []
  String.mk
    (sign ++ Nat.toDigits 10 (m / 10 ^ prec) ++
      (if prec = 0 then [] else '.' :: fracChars prec (m % 10 ^ prec)))

/-- The repository's sentinel string for missing data ("Dato no disponible",
which the specification glosses as the "unavailable" sentinel). -/
def sentinel : String := "Dato no disponible"

/-- `format_large_numbers` from data_fetcher.py: `None` yields the sentinel,
otherwise the value is coerced with `float` inside a `try/except ValueError`
(so only `ValueError` is caught), then rendered with a B/M/K suffix by
magnitude or as a plain 2-decimal number. -/
def format_large_numbers (value : PyVal) : Except PyError String :=
  match value with
  | .none => .ok sentinel
  | v =>
    match pyFloat v with
    | .error (.valueError _) => .ok sentinel
    | .error e => .error e
    | .ok x =>
      if (1000000000 : ℚ) ≤ x then .ok (fmtFixed 1 (x / 1000000000) ++ "B")
      else if (1000000 : ℚ) ≤ x then .ok (fmtFixed 1 (x / 1000000) ++ "M")
      else if (1000 : ℚ) ≤ x then .ok (fmtFixed 1 (x / 1000) ++ "K")
      else .ok (fmtFixed 2 x)

/-- On any non-`None` value, `format_large_numbers` is the coercion followed
by the threshold cascade, with only `ValueError` caught. -/
theorem format_large_numbers_eq (v : PyVal) (hv : v ≠ .none) :
    format_large_numbers v =
      (match pyFloat v with
       | .error (.valueError _) => .ok sentinel
       | .error e => .error e
       | .ok x =>
         if (1000000000 : ℚ) ≤ x then .ok (fmtFixed 1 (x / 1000000000) ++ "B")
         else if (1000000 : ℚ) ≤ x then .ok (fmtFixed 1 (x / 1000000) ++ "M")
         else if (1000 : ℚ) ≤ x then .ok (fmtFixed 1 (x / 1000) ++ "K")
         else .ok (fmtFixed 2 x)) := by
  cases v with
  | none => exact absurd rfl hv
  | num q => rfl
  | str s => rfl
  | list l => rfl
  | dict d => rfl

/-- On a number, `format_large_numbers` is the bare threshold cascade. -/
theorem format_large_numbers_num (x : ℚ) : format_large_numbers (.num x) =
    (if (1000000000 : ℚ) ≤ x then .ok (fmtFixed 1 (x / 1000000000) ++ "B")
     else if (1000000 : ℚ) ≤ x then .ok (fmtFixed 1 (x / 1000000) ++ "M")
     else if (1000 : ℚ) ≤ x then .ok (fmtFixed 1 (x / 1000) ++ "K")
     else .ok (fmtFixed 2 x)) := rfl

/-- Rounding an exact multiple of the denominator changes nothing. -/
theorem roundHalfEvenInt_exact (n d k : ℤ) (hd : 0 < d) (h : n = k * d) :
    roundHalfEvenInt n d = k := by
  subst h
  unfold roundHalfEvenInt
  rw [Int.mul_fdiv_cancel _ (ne_of_gt hd)]
  simp [hd]

/-- Scaled-numerator identity extracted from `q * 10 ^ prec = x`. -/
theorem num_mul_pow_eq (prec : ℕ) (q x : ℚ) (h : q * (10 : ℚ) ^ prec = x) :
    (q.num : ℚ) * (10 : ℚ) ^ prec = x * (q.den : ℚ) := by
  have hd : ((q.den : ℚ)) ≠ 0 := by
    exact_mod_cast q.den_nz
  have hq' : (q.num : ℚ) = q * (q.den : ℚ) := (div_eq_iff hd).mp (Rat.num_div_den q)
  rw [hq', ← h]
  ring

/-- Evaluate `fmtFixed` when the scaled value is exactly a natural number. -/
theorem fmtFixed_eq_of_nonneg (prec : ℕ) (q : ℚ) (m : ℕ)
    (h : q * (10 : ℚ) ^ prec = (m : ℚ)) (hq : ¬ q < 0) :
    fmtFixed prec q = String.mk (Nat.toDigits 10 (m / 10 ^ prec) ++
      (if prec = 0 then [] else '.' :: fracChars prec (m % 10 ^ prec))) := by
  have hnum : q.num * 10 ^ prec = (m : ℤ) * (q.den : ℤ) := by
    have h' := num_mul_pow_eq prec q _ h
    exact_mod_cast h'
  unfold fmtFixed
  rw [roundHalfEvenInt_exact _ _ (m : ℤ) (by exact_mod_cast q.pos) hnum]
  simp [hq]

/-- Evaluate `fmtFixed` when the scaled value is exactly minus a natural
number (with the value itself negative, fixing the sign character). -/
theorem fmtFixed_eq_of_neg (prec : ℕ) (q : ℚ) (m : ℕ)
    (h : q * (10 : ℚ) ^ prec = -(m : ℚ)) (hq : q < 0) :
    fmtFixed prec q = String.mk ('-' :: (Nat.toDigits 10 (m / 10 ^ prec) ++
      (if prec = 0 then [] else '.' :: fracChars prec (m % 10 ^ prec)))) := by
  have hnum : q.num * 10 ^ prec = -(m : ℤ) * (q.den : ℤ) := by
    have h' := num_mul_pow_eq prec q _ h
    exact_mod_cast h'
  unfold fmtFixed
  rw [roundHalfEvenInt_exact _ _ (-(m : ℤ)) (by exact_mod_cast q.pos) hnum]
  simp [hq]

example : fmtFixed 1 ((1500000000 : ℚ) / 1000000000) = "1.5" := by
  rw [fmtFixed_eq_of_nonneg 1 _ 15 (by norm_num) (by norm_num)]
  decide

example : format_large_numbers (.num 1500000000) = .ok "1.5B" := by
  rw [format_large_numbers_num, if_pos (by norm_num),
    fmtFixed_eq_of_nonneg 1 _ 15 (by norm_num) (by norm_num)]
  decide

example : format_large_numbers (.num 2500) = .ok "2.5K" := by
  rw [format_large_numbers_num, if_neg (by norm_num), if_neg (by norm_num),
    if_pos (by norm_num), fmtFixed_eq_of_nonneg 1 _ 25 (by norm_num) (by norm_num)]
  decide

example : format_large_numbers (.num 999) = .ok "999.00" := by
  rw [format_large_numbers_num, if_neg (by norm_num), if_neg (by norm_num),
    if_neg (by norm_num), fmtFixed_eq_of_nonneg 2 _ 99900 (by norm_num) (by norm_num)]
  decide

example : format_large_numbers (.num (-2500)) = .ok "-2500.00" := by
  rw [format_large_numbers_num, if_neg (by norm_num), if_neg (by norm_num),
    if_neg (by norm_num), fmtFixed_eq_of_neg 2 _ 250000 (by norm_num) (by norm_num)]
  decide

example : format_large_numbers .none = .ok sentinel := by decide
example : format_large_numbers (.str "abc") = .ok sentinel := by decide

/-- Python `str(v)` as used by the f-string interpolation of the dividend
yield.  `str(None) = "None"` and strings pass through; floats are rendered
from the exact rational (an integral value prints as `d.0` like Python's
`str(float)`, other values with the digits of the exact fraction — the
repository's spec makes no claim about these renderings).  Containers are
rendered as an opaque placeholder. -/
def pyStr : PyVal → String
  | .none => "None"
  | .num q => if q.den = 1 then toString q.num ++ ".0" else fmtFixed 6 q
  | .str s => s
  | .list _ => "<list>"
  | .dict _ => "<dict>"

/-- Python `v * n` for a natural literal `n`: numbers multiply, sequences
repeat, `None` and dicts raise `TypeError`. -/
def pyMulNat (v : PyVal) (n : ℕ) : Except PyError PyVal :=
  match v with
  | .num q => .ok (.num (q * n))
  | .str s => .ok (.str (String.join (List.replicate n s)))
  | .list l => .ok (.list (List.flatten (List.replicate n l)))
  | .none => .error (.typeError "unsupported operand type(s) for *: NoneType and int")
  | .dict _ => .error (.typeError "unsupported operand type(s) for *: dict and int")

/-- Python `a - b`: defined on two numbers, `TypeError` otherwise. -/
def pySub (a b : PyVal) : Except PyError PyVal :=
  match a, b with
  | .num x, .num y => .ok (.num (x - y))
  | _, _ => .error (.typeError "unsupported operand type(s) for -")

/-- Body of `calculate_debt_change` (the code inside its `try`):
`debt_change = this_year_debt - last_year_debt`, then the three-way sign
dispatch; Spanish result strings as in data_fetcher.py. -/
def calculate_debt_change_body (last_year_debt this_year_debt : PyVal) :
    Except PyError String := do
  let d ← pySub this_year_debt last_year_debt
  match d with
  | .num q =>
    if 0 < q then do
      let f ← format_large_numbers d
      pure ("Aumento de " ++ f)
    else if q < 0 then do
      let f ← format_large_numbers (.num |q|)
      pure ("Disminución de " ++ f)
    else pure "Sin cambio"
  | _ => .error (.typeError "comparison not supported")

/-- `calculate_debt_change` from data_fetcher.py: the body wrapped in
`try/except Exception`, the handler returning an error-description string
that interpolates the exception text. -/
def calculate_debt_change (last_year_debt this_year_debt : PyVal) : String :=
  match calculate_debt_change_body last_year_debt this_year_debt with
  | .ok s => s
  | .error e => "Error en el cálculo: " ++ e.msg

/-- The vendor `info` mapping: string keys to loosely-typed values, in
insertion order. -/
abbrev Info := List (String × PyVal)

/-- `data.get(field, default) if field in data else default` — for a dict
this is exactly a lookup with a default. -/
def safe_get (info : Info) (field : String) (default : PyVal) : PyVal :=
  (info.lookup field).getD default

/-- A value of the fundamental-data mapping: either a plain Python value or
the nested debt-comparison group of string entries. -/
inductive OutVal : Type where
  | val : PyVal → OutVal
  | group : List (String × String) → OutVal

/-- Test used by the code's `!=`/`is not None` guards around the dividend
yield: is the value the sentinel string? -/
def isSentinelStr (v : PyVal) : Bool :=
  match v with
  | .str s => s == sentinel
  | _ => false

/-- `v is None`. -/
def isPyNone (v : PyVal) : Bool :=
  match v with
  | .none => true
  | _ => false

/-- Body of `fetch_fundamental_data` (the code inside its `try`), given the
vendor `info` mapping: the dividend-yield percentage conversion, the ordered
metric mapping with sentinel defaults, and the nested debt-comparison group
with its conditional "Cambio Deuda" entry. -/
def fetch_fundamental_data_body (info : Info) :
    Except PyError (List (String × OutVal)) := do
  let dy0 := safe_get info "dividendYield" (.str sentinel)
  let dy ← if !isSentinelStr dy0 && !isPyNone dy0 then pyMulNat dy0 100 else pure dy0
  let fcf ← format_large_numbers (safe_get info "freeCashflow" (.str sentinel))
  let td ← format_large_numbers (safe_get info "totalDebt" (.str sentinel))
  let ltd ← format_large_numbers (safe_get info "longTermDebt" (.str sentinel))
  let oi ← format_large_numbers (safe_get info "operatingIncome" (.str sentinel))
  let ni ← format_large_numbers (safe_get info "netIncomeToCommon" (.str sentinel))
  let divYieldEntry := if !isSentinelStr dy then pyStr dy ++ "%" else sentinel
  let deudaAnterior ← format_large_numbers (safe_get info "debtToEquity" (.str sentinel))
  let debtComparison ←
    if pyBool (safe_get info "totalDebt" .none) &&
        pyBool (safe_get info "debtToEquity" .none) then do
      let a ← pyFloat (safe_get info "totalDebt" (.num 0))
      let b ← pyFloat (safe_get info "debtToEquity" (.num 1))
      let r ← if b = 0 then
          Except.error (PyError.zeroDivisionError "float division by zero")
        else pure (a / b)
      let c ← format_large_numbers (.num r)
      pure [("Deuda Anterior", deudaAnterior), ("Cambio Deuda", c)]
    else pure [("Deuda Anterior", deudaAnterior)]
  pure [("P/E Ratio", OutVal.val (safe_get info "trailingPE" (.str sentinel))),
        ("P/B Ratio", OutVal.val (safe_get info "priceToBook" (.str sentinel))),
        ("Dividend Yield", OutVal.val (.str divYieldEntry)),
        ("ROE", OutVal.val (safe_get info "returnOnEquity" (.str sentinel))),
        ("Debt to Equity", OutVal.val (safe_get info "debtToEquity" (.str sentinel))),
        ("Beta", OutVal.val (safe_get info "beta" (.str sentinel))),
        ("Revenue Growth", OutVal.val (safe_get info "revenueGrowth" (.str sentinel))),
        ("Free Cash Flow", OutVal.val (.str fcf)),
        ("Total Debt", OutVal.val (.str td)),
        ("Long-Term Debt", OutVal.val (.str ltd)),
        ("Operating Income", OutVal.val (.str oi)),
        ("Net Income", OutVal.val (.str ni)),
        ("EPS Growth (5Y)", OutVal.val (safe_get info "earningsQuarterlyGrowth" (.str sentinel))),
        ("EPS Growth (Next 5Y)", OutVal.val (safe_get info "earningsGrowth" (.str sentinel))),
        ("Debt Comparison", OutVal.group debtComparison)]

/-- The vendor fetch (`yf.Ticker(ticker).info`) together with the body: an
`Except.error` input models the fetch itself raising. -/
def runFundamental (fetched : Except PyError Info) :
    Except PyError (List (String × OutVal)) :=
  match fetched with
  | .error e => .error e
  | .ok info => fetch_fundamental_data_body info

/-- `fetch_fundamental_data` from data_fetcher.py: the whole computation in
`try/except Exception`; on any exception it prints a message and returns the
empty dict.  The returned pair's second component records whether the error
message was logged; the `Except` return type witnesses that an uncaught
exception would be an `Except.error`. -/
def fetch_fundamental_data (fetched : Except PyError Info) :
    Except PyError (List (String × OutVal) × Bool) :=
  match runFundamental fetched with
  | .ok out => .ok (out, false)
  | .error _ => .ok ([], true)

/-- The vendor balance sheet: a row label index with the period values of
each row ordered most-recent-first (column 0 = current year). -/
structure BalanceSheet : Type where
  rows : List (String × List PyVal)

/-- `label in statement.index` / `statement.loc[label]` as one lookup. -/
def bsRow (bs : BalanceSheet) (label : String) : Option (List PyVal) :=
  bs.rows.lookup label

/-- `series.iloc[i]`: positional access, `IndexError` out of bounds. -/
def iloc (row : List PyVal) (i : ℕ) : Except PyError PyVal :=
  match row.get? i with
  | some v => .ok v
  | Option.none => .error (.indexError "single positional indexer is out-of-bounds")

/-- `row.iloc[i] if row is not None else None` from data_fetcher.py. -/
def periodValue (row : Option (List PyVal)) (i : ℕ) : Except PyError PyVal :=
  match row with
  | some r => iloc r i
  | Option.none => .ok .none

/-- Body of `fetch_debt_comparison` (the code inside its `try`), given the
vendor balance sheet: locate the Total Debt and Long Term Debt rows, read
periods 1 (prior) and 0 (current), and emit the two guarded three-entry
blocks. -/
def fetch_debt_comparison_body (bs : BalanceSheet) :
    Except PyError (List (String × String)) := do
  let total_debt := bsRow bs "Total Debt"
  let long_term_debt := bsRow bs "Long Term Debt"
  let debt_last_year ← periodValue total_debt 1
  let debt_this_year ← periodValue total_debt 0
  let long_term_debt_last_year ← periodValue long_term_debt 1
  let long_term_debt_this_year ← periodValue long_term_debt 0
  let block1 ←
    if pyBool debt_last_year && pyBool debt_this_year then do
      let a ← format_large_numbers debt_last_year
      let b ← format_large_numbers debt_this_year
      pure [("Total Debt Last Year", a), ("Total Debt This Year", b),
            ("Debt Change", calculate_debt_change debt_last_year debt_this_year)]
    else pure []
  let block2 ←
    if pyBool long_term_debt_last_year && pyBool long_term_debt_this_year then do
      let a ← format_large_numbers long_term_debt_last_year
      let b ← format_large_numbers long_term_debt_this_year
      pure [("Long Term Debt Last Year", a), ("Long Term Debt This Year", b),
            ("Long Term Debt Change",
              calculate_debt_change long_term_debt_last_year long_term_debt_this_year)]
    else pure []
  pure (block1 ++ block2)

/-- The vendor fetch together with the body, as for the fundamentals. -/
def runDebt (fetched : Except PyError BalanceSheet) :
    Except PyError (List (String × String)) :=
  match fetched with
  | .error e => .error e
  | .ok bs => fetch_debt_comparison_body bs

/-- `fetch_debt_comparison` from data_fetcher.py: the body in
`try/except Exception`; on any exception it prints a message and returns the
empty dict (the `Bool` records the log, as for the fundamentals). -/
def fetch_debt_comparison (fetched : Except PyError BalanceSheet) :
    Except PyError (List (String × String) × Bool) :=
  match runDebt fetched with
  | .ok out => .ok (out, false)
  | .error _ => .ok ([], true)

/-- `EXCHANGE_MAPPING` from exchange_mapping.py: the fixed 8-entry table. -/
def EXCHANGE_MAPPING : List (String × String) :=
  [("NMS", "NASDAQ"),
   ("NYQ", "NYSE"),
   ("ASE", "AMEX"),
   ("MCE", "Mercado continuo"),
   ("TOR", "Toronto Stock Exchange"),
   ("LSE", "London Stock Exchange"),
   ("JPX", "Tokyo Stock Exchange"),
   ("OTC", "Over the Counter")]

/-- `EXCHANGE_MAPPING.get(market_code, market_code)` from main.py. -/
def mapExchange (code : String) : String :=
  (EXCHANGE_MAPPING.lookup code).getD code

example : mapExchange "NMS" = "NASDAQ" := by decide
example : mapExchange "XXX" = "XXX" := by decide

/-- Decompose a successful `Except` bind (used to walk the monadic bodies). -/
theorem except_bind_ok {α β : Type} {e : Except PyError α} {f : α → Except PyError β}
    {b : β} (h : (e >>= f) = .ok b) : ∃ a, e = .ok a ∧ f a = .ok b := by
  cases e with
  | error err => simp [Bind.bind, Except.bind] at h
  | ok a => exact ⟨a, rfl, by simpa [Bind.bind, Except.bind] using h⟩

/-- Bind of a successful `Except` computation reduces. -/
@[simp] theorem ok_bind {α β : Type} (a : α) (f : α → Except PyError β) :
    (Except.ok a : Except PyError α) >>= f = f a := rfl

/-- Bind of a failed `Except` computation short-circuits. -/
@[simp] theorem error_bind {α β : Type} (e : PyError) (f : α → Except PyError β) :
    (Except.error e : Except PyError α) >>= f = .error e := rfl

/-- A digit character is none of the magnitude suffix letters. -/
theorem digitChar_ne_suffix (d : ℕ) (h : d < 10) :
    digitChar d ≠ 'K' ∧ digitChar d ≠ 'M' ∧ digitChar d ≠ 'B' := by
  interval_cases d <;> exact ⟨by decide, by decide, by decide⟩

/-- Last element of a character list of the shape produced by `fmtFixed`
with positive precision. -/
theorem mk_getLast (s1 s2 f : List Char) (a : Char) :
    (String.mk (s1 ++ s2 ++ ('.' :: (f ++ [a])))).data.getLast? = some a := by
  show (s1 ++ s2 ++ ('.' :: (f ++ [a]))).getLast? = some a
  rw [show ('.' :: (f ++ [a])) = ('.' :: f) ++ [a] from rfl, ← List.append_assoc]
  exact List.getLast?_concat _

/-- With positive precision, the last character of `fmtFixed` output is a
decimal digit (in particular no K/M/B suffix letter). -/
theorem fmtFixed_getLast (prec : ℕ) (q : ℚ) :
    ∃ d, d < 10 ∧ (fmtFixed (prec + 1) q).data.getLast? = some (digitChar d) := by
  refine ⟨(roundHalfEvenInt (q.num * 10 ^ (prec + 1)) (q.den : ℤ)).natAbs % 10 ^ (prec + 1) % 10,
    Nat.mod_lt _ (by norm_num), ?_⟩
  exact mk_getLast _ _ _ _

/-- C1: the magnitude formatter: `None` yields the sentinel; `v ≥ 1e9`
yields `v/1e9` to 1 decimal suffixed `B`; `1e6 ≤ v < 1e9` yields `v/1e6`
to 1 decimal suffixed `M`; `1e3 ≤ v < 1e6` yields `v/1e3` to 1 decimal
suffixed `K`; any other numeric `v` yields `v` to 2 decimals; with the
concrete examples 1 500 000 000 → "1.5B", 2500 → "2.5K", 999 → "999.00".
(The sentinel string in the code is "Dato no disponible", which the spec
refers to as the "unavailable" sentinel.) -/
theorem C1_format_large_numbers_magnitudes :
    format_large_numbers PyVal.none = .ok sentinel ∧
    (∀ v : ℚ, 1000000000 ≤ v →
      format_large_numbers (.num v) = .ok (fmtFixed 1 (v / 1000000000) ++ "B")) ∧
    (∀ v : ℚ, 1000000 ≤ v → v < 1000000000 →
      format_large_numbers (.num v) = .ok (fmtFixed 1 (v / 1000000) ++ "M")) ∧
    (∀ v : ℚ, 1000 ≤ v → v < 1000000 →
      format_large_numbers (.num v) = .ok (fmtFixed 1 (v / 1000) ++ "K")) ∧
    (∀ v : ℚ, v < 1000 → format_large_numbers (.num v) = .ok (fmtFixed 2 v)) ∧
    format_large_numbers (.num 1500000000) = .ok "1.5B" ∧
    format_large_numbers (.num 2500) = .ok "2.5K" ∧
    format_large_numbers (.num 999) = .ok "999.00" := by
  refine ⟨rfl, ?_, ?_, ?_, ?_, ?_, ?_, ?_⟩
  · intro v h
    rw [format_large_numbers_num, if_pos h]
  · intro v h1 h2
    rw [format_large_numbers_num, if_neg (by linarith), if_pos h1]
  · intro v h1 h2
    rw [format_large_numbers_num, if_neg (by linarith), if_neg (by linarith), if_pos h1]
  · intro v h
    rw [format_large_numbers_num, if_neg (by linarith), if_neg (by linarith),
      if_neg (by linarith)]
  · rw [format_large_numbers_num, if_pos (by norm_num),
      fmtFixed_eq_of_nonneg 1 _ 15 (by norm_num) (by norm_num)]
    decide
  · rw [format_large_numbers_num, if_neg (by norm_num), if_neg (by norm_num),
      if_pos (by norm_num), fmtFixed_eq_of_nonneg 1 _ 25 (by norm_num) (by norm_num)]
    decide
  · rw [format_large_numbers_num, if_neg (by norm_num), if_neg (by norm_num),
      if_neg (by norm_num), fmtFixed_eq_of_nonneg 2 _ 99900 (by norm_num) (by norm_num)]
    decide

/-- C1 witness: the quantified branches instantiated at concrete values. -/
theorem C1_witness :
    format_large_numbers (.num 7000000000) =
      .ok (fmtFixed 1 ((7000000000 : ℚ) / 1000000000) ++ "B") ∧
    format_large_numbers (.num 3200000) = .ok (fmtFixed 1 ((3200000 : ℚ) / 1000000) ++ "M") ∧
    format_large_numbers (.num 2500) = .ok (fmtFixed 1 ((2500 : ℚ) / 1000) ++ "K") ∧
    format_large_numbers (.num 999) = .ok (fmtFixed 2 (999 : ℚ)) :=
  ⟨C1_format_large_numbers_magnitudes.2.1 7000000000 (by decide),
   C1_format_large_numbers_magnitudes.2.2.1 3200000 (by decide) (by decide),
   C1_format_large_numbers_magnitudes.2.2.2.1 2500 (by decide) (by decide),
   C1_format_large_numbers_magnitudes.2.2.2.2.1 999 (by decide)⟩

/-- C2 counterexample: a list is a non-numeric input, yet
`format_large_numbers` on it raises `TypeError` (only `ValueError` is
caught) instead of returning the sentinel. -/
theorem C2_counterexample :
    format_large_numbers (PyVal.list []) =
      .error (.typeError "float() argument must be a string or a real number, not list") ∧
    format_large_numbers (PyVal.list []) ≠ .ok sentinel := by
  exact ⟨rfl, by decide⟩

/-- C2 (amended): `None` and strings whose float coercion fails yield the
sentinel without raising (the `ValueError` is caught); but for list and
dict inputs the coercion raises `TypeError`, which propagates uncaught. -/
theorem C2_amended :
    format_large_numbers PyVal.none = .ok sentinel ∧
    (∀ s : String, parseFloat? s = Option.none → format_large_numbers (.str s) = .ok sentinel) ∧
    (∀ l : List PyVal, format_large_numbers (.list l) =
      .error (.typeError "float() argument must be a string or a real number, not list")) ∧
    (∀ d : List (String × PyVal), format_large_numbers (.dict d) =
      .error (.typeError "float() argument must be a string or a real number, not dict")) := by
  refine ⟨rfl, ?_, fun l => rfl, fun d => rfl⟩
  intro s h
  have hp : pyFloat (.str s) =
      .error (.valueError ("could not convert string to float: " ++ s)) := by
    show (match parseFloat? s with
          | some q => (Except.ok q : Except PyError ℚ)
          | Option.none =>
            Except.error (.valueError ("could not convert string to float: " ++ s))) =
      Except.error (.valueError ("could not convert string to float: " ++ s))
    rw [h]
  rw [format_large_numbers_eq (.str s) (fun hc => PyVal.noConfusion hc), hp]

/-- C2 witness: a concrete failing string coercion returns the sentinel. -/
theorem C2_witness : format_large_numbers (.str "abc") = .ok sentinel :=
  C2_amended.2.1 "abc" (by decide)

/-- C3: thresholds compare the raw (non-absolute) value, so every negative
number — however large in magnitude — is formatted to 2 decimal places and
gets no K/M/B suffix (the output's last character is a decimal digit). -/
theorem C3_negative_no_suffix (v : ℚ) (hv : v < 0) :
    format_large_numbers (.num v) = .ok (fmtFixed 2 v) ∧
    ∃ c, (fmtFixed 2 v).data.getLast? = some c ∧ c ≠ 'K' ∧ c ≠ 'M' ∧ c ≠ 'B' := by
  constructor
  · rw [format_large_numbers_num, if_neg (by linarith), if_neg (by linarith),
      if_neg (by linarith)]
  · obtain ⟨d, hd, hlast⟩ := fmtFixed_getLast 1 v
    obtain ⟨h1, h2, h3⟩ := digitChar_ne_suffix d hd
    exact ⟨digitChar d, hlast, h1, h2, h3⟩

/-- C3 witness: a negative billion-scale value renders as a plain 2-decimal
number. -/
theorem C3_witness : format_large_numbers (.num (-1500000000)) =
    .ok "-1500000000.00" := by
  have h := (C3_negative_no_suffix (-1500000000) (by decide)).1
  rw [h, fmtFixed_eq_of_neg 2 _ 150000000000 (by norm_num) (by decide)]
  decide

/-- C8: the exchange code mapper maps each of the 8 fixed codes to its
human-readable name and returns every other code unchanged; it is total. -/
theorem C8_exchange_mapper :
    mapExchange "NMS" = "NASDAQ" ∧
    mapExchange "NYQ" = "NYSE" ∧
    mapExchange "ASE" = "AMEX" ∧
    mapExchange "MCE" = "Mercado continuo" ∧
    mapExchange "TOR" = "Toronto Stock Exchange" ∧
    mapExchange "LSE" = "London Stock Exchange" ∧
    mapExchange "JPX" = "Tokyo Stock Exchange" ∧
    mapExchange "OTC" = "Over the Counter" ∧
    (∀ code : String, EXCHANGE_MAPPING.lookup code = Option.none →
      mapExchange code = code) := by
  refine ⟨by decide, by decide, by decide, by decide, by decide, by decide, by decide,
    by decide, ?_⟩
  intro code h
  unfold mapExchange
  rw [h]
  rfl

/-- C8 witness: an unknown code comes back unchanged. -/
theorem C8_witness : mapExchange "XXX" = "XXX" :=
  C8_exchange_mapper.2.2.2.2.2.2.2.2 "XXX" (by decide)

/-- Formatting a number never raises (every branch returns `ok`). -/
theorem format_num_isOk (x : ℚ) : ∃ s, format_large_numbers (.num x) = .ok s := by
  rw [format_large_numbers_num]
  by_cases h1 : (1000000000 : ℚ) ≤ x
  · exact ⟨_, by rw [if_pos h1]⟩
  by_cases h2 : (1000000 : ℚ) ≤ x
  · exact ⟨_, by rw [if_neg h1, if_pos h2]⟩
  by_cases h3 : (1000 : ℚ) ≤ x
  · exact ⟨_, by rw [if_neg h1, if_neg h2, if_pos h3]⟩
  · exact ⟨_, by rw [if_neg h1, if_neg h2, if_neg h3]⟩

/-- The debt-change body on two numbers: subtraction succeeds and the result
is the three-way sign dispatch on `current − prior`. -/
theorem calculate_debt_change_body_num (p c : ℚ) (s t : String)
    (hs : format_large_numbers (.num (c - p)) = .ok s)
    (ht : format_large_numbers (.num |c - p|) = .ok t) :
    calculate_debt_change_body (.num p) (.num c) =
      .ok (if 0 < c - p then "Aumento de " ++ s
           else if c - p < 0 then "Disminución de " ++ t
           else "Sin cambio") := by
  unfold calculate_debt_change_body
  rw [show pySub (.num c) (.num p) = Except.ok (PyVal.num (c - p)) from rfl, ok_bind]
  by_cases h1 : 0 < c - p
  · simp only [if_pos h1, hs, ok_bind]
    rfl
  · by_cases h2 : c - p < 0
    · simp only [if_neg h1, if_pos h2, ht, ok_bind]
      rfl
    · simp only [if_neg h1, if_neg h2]
      rfl

/-- The `try/except` wrapper of the debt-change calculator. -/
theorem calculate_debt_change_eq (a b : PyVal) :
    calculate_debt_change a b =
      (match calculate_debt_change_body a b with
       | .ok s => s
       | .error e => "Error en el cálculo: " ++ e.msg) := rfl

/-- C5 counterexample: at prior=100, current=150 the code returns the
Spanish string "Aumento de 50.00", not the claimed "Increase of 50.00". -/
theorem C5_counterexample :
    calculate_debt_change (PyVal.num 100) (PyVal.num 150) ≠ "Increase of 50.00" ∧
    calculate_debt_change (PyVal.num 100) (PyVal.num 150) = "Aumento de 50.00" := by
  have hfmt : format_large_numbers (.num ((150 : ℚ) - 100)) = .ok "50.00" := by
    rw [show (150 : ℚ) - 100 = 50 by norm_num, format_large_numbers_num,
      if_neg (by norm_num), if_neg (by norm_num), if_neg (by norm_num),
      fmtFixed_eq_of_nonneg 2 _ 5000 (by norm_num) (by norm_num)]
    decide
  have habs : format_large_numbers (.num |(150 : ℚ) - 100|) = .ok "50.00" := by
    rw [show |(150 : ℚ) - 100| = 50 by norm_num, format_large_numbers_num,
      if_neg (by norm_num), if_neg (by norm_num), if_neg (by norm_num),
      fmtFixed_eq_of_nonneg 2 _ 5000 (by norm_num) (by norm_num)]
    decide
  have hb := calculate_debt_change_body_num 100 150 "50.00" "50.00" hfmt habs
  have heq : calculate_debt_change (.num 100) (.num 150) = "Aumento de 50.00" := by
    rw [calculate_debt_change_eq, hb, if_pos (by norm_num)]
    decide
  exact ⟨by rw [heq]; decide, heq⟩

/-- C5 (amended): on numeric prior/current with delta = current − prior, the
calculator returns "Aumento de {formatted delta}" for delta > 0 (Spanish for
"Increase of"), "Disminución de {formatted |delta|}" for delta < 0
("Decrease of"), "Sin cambio" for delta = 0 ("No change"); the concrete
examples yield "Aumento de 50.00" / "Disminución de 50.00" / "Sin cambio";
and any exception in the body yields "Error en el cálculo: {exception
text}" instead of raising. -/
theorem C5_amended :
    (∀ p c : ℚ,
      (0 < c - p → ∃ s, format_large_numbers (.num (c - p)) = .ok s ∧
        calculate_debt_change (.num p) (.num c) = "Aumento de " ++ s) ∧
      (c - p < 0 → ∃ s, format_large_numbers (.num |c - p|) = .ok s ∧
        calculate_debt_change (.num p) (.num c) = "Disminución de " ++ s) ∧
      (c - p = 0 → calculate_debt_change (.num p) (.num c) = "Sin cambio")) ∧
    calculate_debt_change (.num 100) (.num 150) = "Aumento de 50.00" ∧
    calculate_debt_change (.num 150) (.num 100) = "Disminución de 50.00" ∧
    calculate_debt_change (.num 100) (.num 100) = "Sin cambio" ∧
    (∀ a b : PyVal, ∀ e : PyError, calculate_debt_change_body a b = .error e →
      calculate_debt_change a b = "Error en el cálculo: " ++ e.msg) := by
  have main : ∀ p c : ℚ,
      (0 < c - p → ∃ s, format_large_numbers (.num (c - p)) = .ok s ∧
        calculate_debt_change (.num p) (.num c) = "Aumento de " ++ s) ∧
      (c - p < 0 → ∃ s, format_large_numbers (.num |c - p|) = .ok s ∧
        calculate_debt_change (.num p) (.num c) = "Disminución de " ++ s) ∧
      (c - p = 0 → calculate_debt_change (.num p) (.num c) = "Sin cambio") := by
    intro p c
    obtain ⟨s, hs⟩ := format_num_isOk (c - p)
    obtain ⟨t, ht⟩ := format_num_isOk |c - p|
    have hb := calculate_debt_change_body_num p c s t hs ht
    refine ⟨?_, ?_, ?_⟩
    · intro h
      exact ⟨s, hs, by rw [calculate_debt_change_eq, hb, if_pos h]⟩
    · intro h
      exact ⟨t, ht, by rw [calculate_debt_change_eq, hb, if_neg (by linarith), if_pos h]⟩
    · intro h
      rw [calculate_debt_change_eq, hb, if_neg (by rw [h]; exact lt_irrefl 0),
        if_neg (by rw [h]; exact lt_irrefl 0)]
  refine ⟨main, ?_, ?_, ?_, ?_⟩
  · obtain ⟨s, hs, hc⟩ := (main 100 150).1 (by norm_num)
    have hs' : format_large_numbers (.num ((150 : ℚ) - 100)) = .ok "50.00" := by
      rw [show (150 : ℚ) - 100 = 50 by norm_num, format_large_numbers_num,
        if_neg (by norm_num), if_neg (by norm_num), if_neg (by norm_num),
        fmtFixed_eq_of_nonneg 2 _ 5000 (by norm_num) (by norm_num)]
      decide
    rw [hc, Except.ok.inj (hs.symm.trans hs')]
    decide
  · obtain ⟨s, hs, hc⟩ := (main 150 100).2.1 (by norm_num)
    have hs' : format_large_numbers (.num |(100 : ℚ) - 150|) = .ok "50.00" := by
      rw [show |(100 : ℚ) - 150| = 50 by norm_num, format_large_numbers_num,
        if_neg (by norm_num), if_neg (by norm_num), if_neg (by norm_num),
        fmtFixed_eq_of_nonneg 2 _ 5000 (by norm_num) (by norm_num)]
      decide
    rw [hc, Except.ok.inj (hs.symm.trans hs')]
    decide
  · exact (main 100 100).2.2 (by norm_num)
  · intro a b e he
    rw [calculate_debt_change_eq, he]

/-- C5 witness: the amended theorem instantiated at prior=1, current=3. -/
theorem C5_witness : calculate_debt_change (.num 1) (.num 3) = "Aumento de 2.00" := by
  obtain ⟨s, hs, hc⟩ := (C5_amended.1 1 3).1 (by norm_num)
  have hs' : format_large_numbers (.num ((3 : ℚ) - 1)) = .ok "2.00" := by
    rw [show (3 : ℚ) - 1 = 2 by norm_num, format_large_numbers_num,
      if_neg (by norm_num), if_neg (by norm_num), if_neg (by norm_num),
      fmtFixed_eq_of_nonneg 2 _ 200 (by norm_num) (by norm_num)]
    decide
  rw [hc, Except.ok.inj (hs.symm.trans hs')]
  decide

/-- C4: for every fetch outcome (vendor success, vendor exception, or a body
exception on malformed data), both fetchers return `ok` — an exception never
propagates — and whenever the underlying computation raised, the result is
the empty mapping along with a logged message. -/
theorem C4_fetchers_never_raise :
    (∀ fetched : Except PyError Info,
      (∃ out flag, fetch_fundamental_data fetched = .ok (out, flag)) ∧
      (∀ e, runFundamental fetched = .error e →
        fetch_fundamental_data fetched = .ok ([], true))) ∧
    (∀ fetched : Except PyError BalanceSheet,
      (∃ out flag, fetch_debt_comparison fetched = .ok (out, flag)) ∧
      (∀ e, runDebt fetched = .error e →
        fetch_debt_comparison fetched = .ok ([], true))) := by
  constructor
  · intro fetched
    constructor
    · rcases h : runFundamental fetched with e | out
      · exact ⟨[], true, by unfold fetch_fundamental_data; rw [h]⟩
      · exact ⟨out, false, by unfold fetch_fundamental_data; rw [h]⟩
    · intro e he
      unfold fetch_fundamental_data
      rw [he]
  · intro fetched
    constructor
    · rcases h : runDebt fetched with e | out
      · exact ⟨[], true, by unfold fetch_debt_comparison; rw [h]⟩
      · exact ⟨out, false, by unfold fetch_debt_comparison; rw [h]⟩
    · intro e he
      unfold fetch_debt_comparison
      rw [he]

/-- C4 witness: a vendor exception yields the empty mapping plus a log, for
both fetchers. -/
theorem C4_witness :
    fetch_fundamental_data (.error (.typeError "boom")) = .ok ([], true) ∧
    fetch_debt_comparison (.error (.typeError "boom")) = .ok ([], true) :=
  ⟨(C4_fetchers_never_raise.1 _).2 _ rfl, (C4_fetchers_never_raise.2 _).2 _ rfl⟩

/-- C10: the debt comparison is all-or-nothing — whenever its body raises
(e.g. a debt row with a single period column makes `iloc[1]` raise
`IndexError`), every entry built so far is discarded and the empty mapping
is returned; a logged (flag `true`) result is always the empty mapping.
The concrete input has a complete Long Term Debt pair, yet the exception on
the Total Debt row discards everything. -/
theorem C10_discards_on_error :
    (∀ fetched : Except PyError BalanceSheet, ∀ e, runDebt fetched = .error e →
      fetch_debt_comparison fetched = .ok ([], true)) ∧
    (∀ fetched : Except PyError BalanceSheet, ∀ out,
      fetch_debt_comparison fetched = .ok (out, true) → out = []) ∧
    fetch_debt_comparison (.ok ⟨[("Total Debt", [PyVal.num 5000]),
      ("Long Term Debt", [PyVal.num 3000, PyVal.num 1000])]⟩) = .ok ([], true) := by
  refine ⟨?_, ?_, rfl⟩
  · intro fetched e he
    unfold fetch_debt_comparison
    rw [he]
  · intro fetched out h
    unfold fetch_debt_comparison at h
    rcases hr : runDebt fetched with e | out'
    · rw [hr] at h
      simp only [Except.ok.injEq, Prod.mk.injEq] at h
      exact h.1.symm
    · rw [hr] at h
      simp only [Except.ok.injEq, Prod.mk.injEq] at h
      exact absurd h.2 (by decide)

/-- C10 witness: a Total Debt row with one period column triggers the
`IndexError` path and the empty mapping comes back. -/
theorem C10_witness :
    fetch_debt_comparison (.ok ⟨[("Total Debt", [PyVal.num 5000])]⟩) = .ok ([], true) :=
  C10_discards_on_error.1 _ (.indexError "single positional indexer is out-of-bounds") rfl

/-- The info fields that `fetch_fundamental_data` looks up. -/
def lookedUpFields : List String :=
  ["trailingPE", "priceToBook", "dividendYield", "returnOnEquity", "debtToEquity",
   "beta", "revenueGrowth", "freeCashflow", "totalDebt", "longTermDebt",
   "operatingIncome", "netIncomeToCommon", "earningsQuarterlyGrowth", "earningsGrowth"]

/-- On a vendor response missing every looked-up field, the body produces
the all-sentinel mapping. -/
theorem fundamental_body_missing (info : Info)
    (h : ∀ f ∈ lookedUpFields, info.lookup f = Option.none) :
    fetch_fundamental_data_body info =
      .ok [("P/E Ratio", OutVal.val (.str sentinel)),
           ("P/B Ratio", OutVal.val (.str sentinel)),
           ("Dividend Yield", OutVal.val (.str sentinel)),
           ("ROE", OutVal.val (.str sentinel)),
           ("Debt to Equity", OutVal.val (.str sentinel)),
           ("Beta", OutVal.val (.str sentinel)),
           ("Revenue Growth", OutVal.val (.str sentinel)),
           ("Free Cash Flow", OutVal.val (.str sentinel)),
           ("Total Debt", OutVal.val (.str sentinel)),
           ("Long-Term Debt", OutVal.val (.str sentinel)),
           ("Operating Income", OutVal.val (.str sentinel)),
           ("Net Income", OutVal.val (.str sentinel)),
           ("EPS Growth (5Y)", OutVal.val (.str sentinel)),
           ("EPS Growth (Next 5Y)", OutVal.val (.str sentinel)),
           ("Debt Comparison", OutVal.group [("Deuda Anterior", sentinel)])] := by
  have h1 := h "trailingPE" (by decide)
  have h2 := h "priceToBook" (by decide)
  have h3 := h "dividendYield" (by decide)
  have h4 := h "returnOnEquity" (by decide)
  have h5 := h "debtToEquity" (by decide)
  have h6 := h "beta" (by decide)
  have h7 := h "revenueGrowth" (by decide)
  have h8 := h "freeCashflow" (by decide)
  have h9 := h "totalDebt" (by decide)
  have h10 := h "longTermDebt" (by decide)
  have h11 := h "operatingIncome" (by decide)
  have h12 := h "netIncomeToCommon" (by decide)
  have h13 := h "earningsQuarterlyGrowth" (by decide)
  have h14 := h "earningsGrowth" (by decide)
  unfold fetch_fundamental_data_body safe_get
  rw [h1, h2, h3, h4, h5, h6, h7, h8, h9, h10, h11, h12, h13, h14]
  rfl

/-- C6: if every looked-up field is absent from the vendor info, every
metric entry equals the sentinel string and the nested "Debt Comparison"
group is present without a change ("Cambio Deuda") entry; nothing raised,
nothing logged. -/
theorem C6_missing_fields (info : Info)
    (h : ∀ f ∈ lookedUpFields, info.lookup f = Option.none) :
    fetch_fundamental_data (.ok info) =
      .ok ([("P/E Ratio", OutVal.val (.str sentinel)),
            ("P/B Ratio", OutVal.val (.str sentinel)),
            ("Dividend Yield", OutVal.val (.str sentinel)),
            ("ROE", OutVal.val (.str sentinel)),
            ("Debt to Equity", OutVal.val (.str sentinel)),
            ("Beta", OutVal.val (.str sentinel)),
            ("Revenue Growth", OutVal.val (.str sentinel)),
            ("Free Cash Flow", OutVal.val (.str sentinel)),
            ("Total Debt", OutVal.val (.str sentinel)),
            ("Long-Term Debt", OutVal.val (.str sentinel)),
            ("Operating Income", OutVal.val (.str sentinel)),
            ("Net Income", OutVal.val (.str sentinel)),
            ("EPS Growth (5Y)", OutVal.val (.str sentinel)),
            ("EPS Growth (Next 5Y)", OutVal.val (.str sentinel)),
            ("Debt Comparison", OutVal.group [("Deuda Anterior", sentinel)])], false) ∧
    List.lookup "Cambio Deuda" [("Deuda Anterior", sentinel)] = Option.none := by
  refine ⟨?_, by decide⟩
  show (match fetch_fundamental_data_body info with
        | .ok out => (.ok (out, false) : Except PyError (List (String × OutVal) × Bool))
        | .error _ => .ok ([], true)) = _
  rw [fundamental_body_missing info h]

/-- C6 witness: the empty vendor mapping misses every field. -/
theorem C6_witness :
    fetch_fundamental_data (.ok ([] : Info)) =
      .ok ([("P/E Ratio", OutVal.val (.str sentinel)),
            ("P/B Ratio", OutVal.val (.str sentinel)),
            ("Dividend Yield", OutVal.val (.str sentinel)),
            ("ROE", OutVal.val (.str sentinel)),
            ("Debt to Equity", OutVal.val (.str sentinel)),
            ("Beta", OutVal.val (.str sentinel)),
            ("Revenue Growth", OutVal.val (.str sentinel)),
            ("Free Cash Flow", OutVal.val (.str sentinel)),
            ("Total Debt", OutVal.val (.str sentinel)),
            ("Long-Term Debt", OutVal.val (.str sentinel)),
            ("Operating Income", OutVal.val (.str sentinel)),
            ("Net Income", OutVal.val (.str sentinel)),
            ("EPS Growth (5Y)", OutVal.val (.str sentinel)),
            ("EPS Growth (Next 5Y)", OutVal.val (.str sentinel)),
            ("Debt Comparison", OutVal.group [("Deuda Anterior", sentinel)])], false) :=
  (C6_missing_fields [] (fun _ _ => rfl)).1

/-- C9: a vendor info carrying `dividendYield = None` produces the literal
string "None%" for the "Dividend Yield" entry — not the sentinel — because
the present-but-None value skips the ×100 conversion yet passes the
sentinel-inequality test guarding the "%" suffix. -/
theorem C9_dividend_yield_none (info : Info) (out : List (String × OutVal))
    (hdy : info.lookup "dividendYield" = some PyVal.none)
    (hout : fetch_fundamental_data (.ok info) = .ok (out, false)) :
    out.lookup "Dividend Yield" = some (OutVal.val (.str "None%")) ∧
    OutVal.val (PyVal.str "None%") ≠ OutVal.val (PyVal.str sentinel) := by
  refine ⟨?_, fun hc => absurd (PyVal.str.inj (OutVal.val.inj hc)) (by decide)⟩
  have hbody : fetch_fundamental_data_body info = .ok out := by
    have hw : (match fetch_fundamental_data_body info with
          | Except.ok o => (Except.ok (o, false) : Except PyError (List (String × OutVal) × Bool))
          | Except.error _ => Except.ok ([], true)) = Except.ok (out, false) := hout
    rcases hb : fetch_fundamental_data_body info with e | o
    · rw [hb] at hw
      simp at hw
    · rw [hb] at hw
      simp only [Except.ok.injEq, Prod.mk.injEq] at hw
      rw [hw.1]
  unfold fetch_fundamental_data_body safe_get at hbody
  rw [hdy] at hbody
  simp only [Option.getD_some, isSentinelStr, isPyNone, Bool.not_true, Bool.not_false,
    Bool.and_false, Bool.false_eq_true, if_false, pure_bind, pyStr] at hbody
  obtain ⟨fcf, hfcf, hbody⟩ := except_bind_ok hbody
  obtain ⟨td, htd, hbody⟩ := except_bind_ok hbody
  obtain ⟨ltd, hltd, hbody⟩ := except_bind_ok hbody
  obtain ⟨oi, hoi, hbody⟩ := except_bind_ok hbody
  obtain ⟨ni, hni, hbody⟩ := except_bind_ok hbody
  obtain ⟨da, hda, hbody⟩ := except_bind_ok hbody
  cases hg : (pyBool ((List.lookup "totalDebt" info).getD PyVal.none) &&
      pyBool ((List.lookup "debtToEquity" info).getD PyVal.none)) with
  | false =>
    rw [if_neg (by simp [hg])] at hbody
    rw [← Except.ok.inj hbody]
    rfl
  | true =>
    rw [if_pos hg] at hbody
    obtain ⟨a, ha, hbody⟩ := except_bind_ok hbody
    obtain ⟨b, hb, hbody⟩ := except_bind_ok hbody
    by_cases hb0 : b = 0
    · rw [if_pos hb0] at hbody
      simp only [error_bind] at hbody
      cases hbody
    · rw [if_neg hb0] at hbody
      obtain ⟨c, hc, hbody⟩ := except_bind_ok hbody
      rw [← Except.ok.inj hbody]
      rfl

/-- C9 witness: the singleton vendor mapping with a `None` dividend yield. -/
theorem C9_witness :
    (List.lookup "Dividend Yield"
      [("P/E Ratio", OutVal.val (.str sentinel)),
       ("P/B Ratio", OutVal.val (.str sentinel)),
       ("Dividend Yield", OutVal.val (.str "None%")),
       ("ROE", OutVal.val (.str sentinel)),
       ("Debt to Equity", OutVal.val (.str sentinel)),
       ("Beta", OutVal.val (.str sentinel)),
       ("Revenue Growth", OutVal.val (.str sentinel)),
       ("Free Cash Flow", OutVal.val (.str sentinel)),
       ("Total Debt", OutVal.val (.str sentinel)),
       ("Long-Term Debt", OutVal.val (.str sentinel)),
       ("Operating Income", OutVal.val (.str sentinel)),
       ("Net Income", OutVal.val (.str sentinel)),
       ("EPS Growth (5Y)", OutVal.val (.str sentinel)),
       ("EPS Growth (Next 5Y)", OutVal.val (.str sentinel)),
       ("Debt Comparison", OutVal.group [("Deuda Anterior", sentinel)])]) =
      some (OutVal.val (.str "None%")) ∧
    OutVal.val (PyVal.str "None%") ≠ OutVal.val (PyVal.str sentinel) :=
  C9_dividend_yield_none [("dividendYield", PyVal.none)] _ rfl rfl

/-- C7: on a successful (non-logging) run, the debt comparison reads column
0 as the current period and column 1 as the prior period; each of the Total
Debt and Long-Term Debt pairs contributes its three entries (formatted
prior, formatted current, change descriptor) exactly when both period
values are truthy (present and non-null/non-zero), and is omitted
otherwise; hence the mapping has 0, 3 or 6 entries. -/
theorem C7_debt_comparison_blocks (bs : BalanceSheet) (out : List (String × String))
    (hout : fetch_debt_comparison (.ok bs) = .ok (out, false)) :
    (out.length = 0 ∨ out.length = 3 ∨ out.length = 6) ∧
    (∀ last this : PyVal,
      periodValue (bsRow bs "Total Debt") 1 = .ok last →
      periodValue (bsRow bs "Total Debt") 0 = .ok this →
      ((pyBool last && pyBool this) = true →
        ∃ s1 s2, format_large_numbers last = .ok s1 ∧ format_large_numbers this = .ok s2 ∧
          out.lookup "Total Debt Last Year" = some s1 ∧
          out.lookup "Total Debt This Year" = some s2 ∧
          out.lookup "Debt Change" = some (calculate_debt_change last this)) ∧
      ((pyBool last && pyBool this) = false →
        out.lookup "Total Debt Last Year" = Option.none ∧
        out.lookup "Total Debt This Year" = Option.none ∧
        out.lookup "Debt Change" = Option.none)) ∧
    (∀ last this : PyVal,
      periodValue (bsRow bs "Long Term Debt") 1 = .ok last →
      periodValue (bsRow bs "Long Term Debt") 0 = .ok this →
      ((pyBool last && pyBool this) = true →
        ∃ s1 s2, format_large_numbers last = .ok s1 ∧ format_large_numbers this = .ok s2 ∧
          out.lookup "Long Term Debt Last Year" = some s1 ∧
          out.lookup "Long Term Debt This Year" = some s2 ∧
          out.lookup "Long Term Debt Change" = some (calculate_debt_change last this)) ∧
      ((pyBool last && pyBool this) = false →
        out.lookup "Long Term Debt Last Year" = Option.none ∧
        out.lookup "Long Term Debt This Year" = Option.none ∧
        out.lookup "Long Term Debt Change" = Option.none)) := by
  have hbody : fetch_debt_comparison_body bs = .ok out := by
    have hw : (match fetch_debt_comparison_body bs with
          | Except.ok o => (Except.ok (o, false) : Except PyError (List (String × String) × Bool))
          | Except.error _ => Except.ok ([], true)) = Except.ok (out, false) := hout
    rcases hb : fetch_debt_comparison_body bs with e | o
    · rw [hb] at hw
      simp at hw
    · rw [hb] at hw
      simp only [Except.ok.injEq, Prod.mk.injEq] at hw
      rw [hw.1]
  unfold fetch_debt_comparison_body at hbody
  obtain ⟨dl, hdl, hbody⟩ := except_bind_ok hbody
  obtain ⟨dt, hdt, hbody⟩ := except_bind_ok hbody
  obtain ⟨ll, hll, hbody⟩ := except_bind_ok hbody
  obtain ⟨lt, hlt, hbody⟩ := except_bind_ok hbody
  simp only [pure_bind] at hbody
  cases hg1 : (pyBool dl && pyBool dt) with
  | false =>
    rw [if_neg (by simp [hg1])] at hbody
    cases hg2 : (pyBool ll && pyBool lt) with
    | false =>
      rw [if_neg (by simp [hg2])] at hbody
      have hout2 : out = ([] : List (String × String)) ++ [] := (Except.ok.inj hbody).symm
      subst hout2
      refine ⟨Or.inl rfl, ?_, ?_⟩
      · intro last this h1 h2
        have e1 : dl = last := Except.ok.inj (hdl.symm.trans h1)
        have e2 : dt = this := Except.ok.inj (hdt.symm.trans h2)
        subst e1; subst e2
        exact ⟨fun htrue => absurd (hg1.symm.trans htrue) (by decide),
          fun _ => ⟨rfl, rfl, rfl⟩⟩
      · intro last this h1 h2
        have e1 : ll = last := Except.ok.inj (hll.symm.trans h1)
        have e2 : lt = this := Except.ok.inj (hlt.symm.trans h2)
        subst e1; subst e2
        exact ⟨fun htrue => absurd (hg2.symm.trans htrue) (by decide),
          fun _ => ⟨rfl, rfl, rfl⟩⟩
    | true =>
      rw [if_pos hg2] at hbody
      obtain ⟨t1, ht1, hbody⟩ := except_bind_ok hbody
      obtain ⟨t2, ht2, hbody⟩ := except_bind_ok hbody
      have hout2 : out = ([] : List (String × String)) ++
          [("Long Term Debt Last Year", t1), ("Long Term Debt This Year", t2),
           ("Long Term Debt Change", calculate_debt_change ll lt)] :=
        (Except.ok.inj hbody).symm
      subst hout2
      refine ⟨Or.inr (Or.inl rfl), ?_, ?_⟩
      · intro last this h1 h2
        have e1 : dl = last := Except.ok.inj (hdl.symm.trans h1)
        have e2 : dt = this := Except.ok.inj (hdt.symm.trans h2)
        subst e1; subst e2
        exact ⟨fun htrue => absurd (hg1.symm.trans htrue) (by decide),
          fun _ => ⟨rfl, rfl, rfl⟩⟩
      · intro last this h1 h2
        have e1 : ll = last := Except.ok.inj (hll.symm.trans h1)
        have e2 : lt = this := Except.ok.inj (hlt.symm.trans h2)
        subst e1; subst e2
        exact ⟨fun _ => ⟨t1, t2, ht1, ht2, rfl, rfl, rfl⟩,
          fun hfalse => absurd (hg2.symm.trans hfalse) (by decide)⟩
  | true =>
    rw [if_pos hg1] at hbody
    obtain ⟨s1, hs1, hbody⟩ := except_bind_ok hbody
    obtain ⟨s2, hs2, hbody⟩ := except_bind_ok hbody
    cases hg2 : (pyBool ll && pyBool lt) with
    | false =>
      rw [if_neg (by simp [hg2])] at hbody
      have hout2 : out = [("Total Debt Last Year", s1), ("Total Debt This Year", s2),
          ("Debt Change", calculate_debt_change dl dt)] ++ ([] : List (String × String)) :=
        (Except.ok.inj hbody).symm
      subst hout2
      refine ⟨Or.inr (Or.inl rfl), ?_, ?_⟩
      · intro last this h1 h2
        have e1 : dl = last := Except.ok.inj (hdl.symm.trans h1)
        have e2 : dt = this := Except.ok.inj (hdt.symm.trans h2)
        subst e1; subst e2
        exact ⟨fun _ => ⟨s1, s2, hs1, hs2, rfl, rfl, rfl⟩,
          fun hfalse => absurd (hg1.symm.trans hfalse) (by decide)⟩
      · intro last this h1 h2
        have e1 : ll = last := Except.ok.inj (hll.symm.trans h1)
        have e2 : lt = this := Except.ok.inj (hlt.symm.trans h2)
        subst e1; subst e2
        exact ⟨fun htrue => absurd (hg2.symm.trans htrue) (by decide),
          fun _ => ⟨rfl, rfl, rfl⟩⟩
    | true =>
      rw [if_pos hg2] at hbody
      obtain ⟨t1, ht1, hbody⟩ := except_bind_ok hbody
      obtain ⟨t2, ht2, hbody⟩ := except_bind_ok hbody
      have hout2 : out = [("Total Debt Last Year", s1), ("Total Debt This Year", s2),
          ("Debt Change", calculate_debt_change dl dt)] ++
          [("Long Term Debt Last Year", t1), ("Long Term Debt This Year", t2),
           ("Long Term Debt Change", calculate_debt_change ll lt)] :=
        (Except.ok.inj hbody).symm
      subst hout2
      refine ⟨Or.inr (Or.inr rfl), ?_, ?_⟩
      · intro last this h1 h2
        have e1 : dl = last := Except.ok.inj (hdl.symm.trans h1)
        have e2 : dt = this := Except.ok.inj (hdt.symm.trans h2)
        subst e1; subst e2
        exact ⟨fun _ => ⟨s1, s2, hs1, hs2, rfl, rfl, rfl⟩,
          fun hfalse => absurd (hg1.symm.trans hfalse) (by decide)⟩
      · intro last this h1 h2
        have e1 : ll = last := Except.ok.inj (hll.symm.trans h1)
        have e2 : lt = this := Except.ok.inj (hlt.symm.trans h2)
        subst e1; subst e2
        exact ⟨fun _ => ⟨t1, t2, ht1, ht2, rfl, rfl, rfl⟩,
          fun hfalse => absurd (hg2.symm.trans hfalse) (by decide)⟩

/-- C7 witness: a balance sheet whose Total Debt periods are zero takes the
omission path: the run succeeds and no Total Debt entries appear. -/
theorem C7_witness :
    ([] : List (String × String)).lookup "Total Debt Last Year" = Option.none ∧
    ([] : List (String × String)).lookup "Total Debt This Year" = Option.none ∧
    ([] : List (String × String)).lookup "Debt Change" = Option.none :=
  ((C7_debt_comparison_blocks ⟨[("Total Debt", [PyVal.num 0, PyVal.num 0])]⟩ [] rfl).2.1
    (PyVal.num 0) (PyVal.num 0) rfl rfl).2 rfl

end Analyzer
